import Mathlib

/-!
Verification development for the video-platform MCP adapter.

Shallow embedding of the Go sources:
  internal/client/client.go  — typed HTTP wrapper over the upstream REST API
  internal/handlers (tools)  — tool handler factories (makeListSessions, …)
  internal/handlers/resources.go — resource handlers

The HTTP transport and JSON encoding/decoding are external effects; they are
modelled as function-valued fields of `ClientEnv` (the counterpart of the Go
`Client` plus the `encoding/json` codecs).  Every handler additionally returns
the list of HTTP requests it issued, so that "no upstream call is made" is the
statement that this trace is empty.  Go decodes JSON numbers to float64 and the
handlers convert with int(); the claims under study only involve integral
values, so numbers are carried as `Int`.
-/

namespace VideoMCP

/-- Session mirrors the Go struct `client.Session` (pointer fields become `Option`). -/
structure Session where
  id : String
  name : String
  sessionType : String
  status : String
  scheduledStart : Option String := none
  actualStart : Option String := none
  actualEnd : Option String := none
  opponent : Option String := none
  location : Option String := none
  clipCount : Int := 0
  tagCount : Int := 0
  totalDurationSeconds : Int := 0
  createdAt : String := ""
  updatedAt : String := ""
deriving DecidableEq

/-- Clip mirrors the Go struct `client.Clip`.  `durationSeconds` is a float64 in Go;
no claim involves it, and it is carried as `Int` here. -/
structure Clip where
  id : String
  sessionId : String
  channelId : String
  title : Option String := none
  startTime : String := ""
  endTime : String := ""
  durationSeconds : Int := 0
  status : String := ""
  isFavorite : Bool := false
  viewCount : Int := 0
  createdAt : String := ""
deriving DecidableEq

/-- Channel mirrors the Go struct `client.Channel`. -/
structure Channel where
  id : String
  name : String
  description : Option String := none
  inputType : Option String := none
  inputURL : Option String := none
  resolution : Option String := none
  framerate : Option Int := none
  status : String := ""
  lastSeenAt : Option String := none
  errorMessage : Option String := none
  createdAt : String := ""
deriving DecidableEq

/-- Tag mirrors the Go struct `client.Tag`. -/
structure Tag where
  id : String
  clipId : String
  sessionId : String
  quarter : Option Int := none
  down : Option Int := none
  distance : Option Int := none
  playType : Option String := none
  formation : Option String := none
  result : Option String := none
  yardsGained : Option Int := none
  labels : List String := []
  notes : Option String := none
  isImportant : Bool := false
  isReviewed : Bool := false
  createdAt : String := ""
deriving DecidableEq

/-- PaginatedResponse mirrors the generic Go struct `client.PaginatedResponse[T]`. -/
structure PaginatedResponse (α : Type) where
  data : List α
  total : Int := 0
  limit : Int := 0
  offset : Int := 0
deriving DecidableEq

/-- CreateSessionRequest mirrors the Go struct `client.CreateSessionRequest`. -/
structure CreateSessionRequest where
  name : String
  sessionType : String
  scheduledStart : Option String := none
  opponent : Option String := none
  location : Option String := none
deriving DecidableEq

/-- CreateTagRequest mirrors the Go struct `client.CreateTagRequest`. -/
structure CreateTagRequest where
  clipId : String
  sessionId : String
  quarter : Option Int := none
  down : Option Int := none
  distance : Option Int := none
  playType : Option String := none
  formation : Option String := none
  result : Option String := none
  yardsGained : Option Int := none
  labels : List String := []
  notes : Option String := none
deriving DecidableEq

/-- ReqBody is the JSON body a client method serializes into a POST request
(`nil` body is `Option.none` at the `HTTPRequest` level). -/
inductive ReqBody where
  | sessionCreate (r : CreateSessionRequest)
  | tagCreate (r : CreateTagRequest)
deriving DecidableEq

/-- HTTPRequest is the outbound request a client method constructs: method,
path relative to the configured base URL, query parameters in the order the Go
code sets them, and optional JSON body. -/
structure HTTPRequest where
  method : String
  path : String
  query : List (String × String) := []
  body : Option ReqBody := none
deriving DecidableEq

/-- HTTPResult is what `httpClient.Do` yields: either a transport-level error
(connection, timeout) or a response with a status code and raw body. -/
inductive HTTPResult where
  | transportError (msg : String)
  | response (status : Nat) (body : String)
deriving DecidableEq

/-- ClientError is the error value a client method returns, one constructor per
`fmt.Errorf` site in `doRequest` (client.go lines 377-396). -/
inductive ClientError where
  | requestFailed (msg : String)
  | apiError (status : Nat) (body : String)
  | decodeFailed (msg : String)
deriving DecidableEq

/-- renderError mirrors how Go's `%v` renders each `fmt.Errorf` value from
`doRequest`. -/
def renderError : ClientError → String
  | .requestFailed msg => "request failed: " ++ msg
  | .apiError status body => "API error " ++ toString status ++ ": " ++ body
  | .decodeFailed msg => "failed to decode response: " ++ msg

/-- ClientEnv bundles the effects the Go `Client` value closes over: the HTTP
transport (`httpClient.Do`) and the `encoding/json` codecs used to decode
response bodies and to pretty-print entities (`json.MarshalIndent`). -/
structure ClientEnv where
  transport : HTTPRequest → HTTPResult
  decodeSessionPage : String → Except String (PaginatedResponse Session)
  decodeSession : String → Except String Session
  decodeClipPage : String → Except String (PaginatedResponse Clip)
  decodeClip : String → Except String Clip
  decodeChannelPage : String → Except String (PaginatedResponse Channel)
  decodeChannel : String → Except String Channel
  decodeTagPage : String → Except String (PaginatedResponse Tag)
  decodeTag : String → Except String Tag
  renderSessionPage : PaginatedResponse Session → String
  renderSession : Session → String
  renderClipPage : PaginatedResponse Clip → String
  renderChannelPage : PaginatedResponse Channel → String
  renderTagPage : PaginatedResponse Tag → String
  renderTag : Tag → String

/-- doRequest mirrors `Client.doRequest` (client.go 377-396): a transport error
is wrapped as "request failed"; a status ≥ 400 becomes an API error carrying
the status and raw body; otherwise the body is decoded, a decode error being
wrapped as "failed to decode response". -/
def doRequest {α : Type} (res : HTTPResult) (decode : String → Except String α) :
    Except ClientError α :=
  match res with
  | .transportError msg => .error (.requestFailed msg)
  | .response status body =>
    if 400 ≤ status then
      .error (.apiError status body)
    else
      match decode body with
      | .error m => .error (.decodeFailed m)
      | .ok v => .ok v

/-- doGet mirrors `Client.get`: build a GET request with the given path and
query, perform it, and record it in the trace. -/
def doGet {α : Type} (env : ClientEnv) (path : String) (query : List (String × String))
    (decode : String → Except String α) : Except ClientError α × List HTTPRequest :=
  let req : HTTPRequest := { method := "GET", path := path, query := query, body := none }
  (doRequest (env.transport req) decode, [req])

/-- doPost mirrors `Client.post`: build a POST request with the given path and
optional JSON body, perform it, and record it in the trace. -/
def doPost {α : Type} (env : ClientEnv) (path : String) (body : Option ReqBody)
    (decode : String → Except String α) : Except ClientError α × List HTTPRequest :=
  let req : HTTPRequest := { method := "POST", path := path, query := [], body := body }
  (doRequest (env.transport req) decode, [req])

/-- ListSessionsParams mirrors the Go struct `client.ListSessionsParams`. -/
structure ListSessionsParams where
  status : String := ""
  sessionType : String := ""
  limit : Int := 0
  offset : Int := 0
deriving DecidableEq

/-- sessionsQuery mirrors the query construction in `Client.ListSessions`
(client.go 114-127): each field is serialized only when non-empty / positive. -/
def sessionsQuery (params : ListSessionsParams) : List (String × String) :=
  (if params.status ≠ "" then [("status", params.status)] else []) ++
  (if params.sessionType ≠ "" then [("session_type", params.sessionType)] else []) ++
  (if 0 < params.limit then [("limit", toString params.limit)] else []) ++
  (if 0 < params.offset then [("offset", toString params.offset)] else [])

/-- listSessions mirrors `Client.ListSessions`. -/
def ClientEnv.listSessions (env : ClientEnv) (params : ListSessionsParams) :
    Except ClientError (PaginatedResponse Session) × List HTTPRequest :=
  doGet env "/api/v1/sessions" (sessionsQuery params) env.decodeSessionPage

/-- getSession mirrors `Client.GetSession`. -/
def ClientEnv.getSession (env : ClientEnv) (id : String) :
    Except ClientError Session × List HTTPRequest :=
  doGet env ("/api/v1/sessions/" ++ id) [] env.decodeSession

/-- createSession mirrors `Client.CreateSession`. -/
def ClientEnv.createSession (env : ClientEnv) (req : CreateSessionRequest) :
    Except ClientError Session × List HTTPRequest :=
  doPost env "/api/v1/sessions" (some (.sessionCreate req)) env.decodeSession

/-- startSession mirrors `Client.StartSession` (client.go 164-170). -/
def ClientEnv.startSession (env : ClientEnv) (id : String) :
    Except ClientError Session × List HTTPRequest :=
  doPost env ("/api/v1/sessions/" ++ id ++ "/start") none env.decodeSession

/-- pauseSession mirrors `Client.PauseSession`. -/
def ClientEnv.pauseSession (env : ClientEnv) (id : String) :
    Except ClientError Session × List HTTPRequest :=
  doPost env ("/api/v1/sessions/" ++ id ++ "/pause") none env.decodeSession

/-- completeSession mirrors `Client.CompleteSession`. -/
def ClientEnv.completeSession (env : ClientEnv) (id : String) :
    Except ClientError Session × List HTTPRequest :=
  doPost env ("/api/v1/sessions/" ++ id ++ "/complete") none env.decodeSession

/-- ListClipsParams mirrors the Go struct `client.ListClipsParams`. -/
structure ListClipsParams where
  sessionId : String := ""
  channelId : String := ""
  status : String := ""
  favorite : Option Bool := none
  search : String := ""
  limit : Int := 0
  offset : Int := 0
deriving DecidableEq

/-- boolString mirrors Go's `fmt.Sprintf("%v", b)` on a bool. -/
def boolString (b : Bool) : String := if b then "true" else "false"

/-- clipsQuery mirrors the query construction in `Client.ListClips`
(client.go 202-224). -/
def clipsQuery (params : ListClipsParams) : List (String × String) :=
  (if params.sessionId ≠ "" then [("session_id", params.sessionId)] else []) ++
  (if params.channelId ≠ "" then [("channel_id", params.channelId)] else []) ++
  (if params.status ≠ "" then [("status", params.status)] else []) ++
  (match params.favorite with
    | some b => [("favorite", boolString b)]
    | none => []) ++
  (if params.search ≠ "" then [("search", params.search)] else []) ++
  (if 0 < params.limit then [("limit", toString params.limit)] else []) ++
  (if 0 < params.offset then [("offset", toString params.offset)] else [])

/-- listClips mirrors `Client.ListClips`. -/
def ClientEnv.listClips (env : ClientEnv) (params : ListClipsParams) :
    Except ClientError (PaginatedResponse Clip) × List HTTPRequest :=
  doGet env "/api/v1/clips" (clipsQuery params) env.decodeClipPage

/-- getClip mirrors `Client.GetClip`. -/
def ClientEnv.getClip (env : ClientEnv) (id : String) :
    Except ClientError Clip × List HTTPRequest :=
  doGet env ("/api/v1/clips/" ++ id) [] env.decodeClip

/-- favoriteClip mirrors `Client.FavoriteClip` (client.go 243-249). -/
def ClientEnv.favoriteClip (env : ClientEnv) (id : String) :
    Except ClientError Clip × List HTTPRequest :=
  doPost env ("/api/v1/clips/" ++ id ++ "/favorite") none env.decodeClip

/-- listChannels mirrors `Client.ListChannels` (no filters). -/
def ClientEnv.listChannels (env : ClientEnv) :
    Except ClientError (PaginatedResponse Channel) × List HTTPRequest :=
  doGet env "/api/v1/channels" [] env.decodeChannelPage

/-- activateChannel mirrors `Client.ActivateChannel`. -/
def ClientEnv.activateChannel (env : ClientEnv) (id : String) :
    Except ClientError Channel × List HTTPRequest :=
  doPost env ("/api/v1/channels/" ++ id ++ "/activate") none env.decodeChannel

/-- deactivateChannel mirrors `Client.DeactivateChannel`. -/
def ClientEnv.deactivateChannel (env : ClientEnv) (id : String) :
    Except ClientError Channel × List HTTPRequest :=
  doPost env ("/api/v1/channels/" ++ id ++ "/deactivate") none env.decodeChannel

/-- ListTagsParams mirrors the Go struct `client.ListTagsParams`. -/
structure ListTagsParams where
  sessionId : String := ""
  clipId : String := ""
  playType : String := ""
  isImportant : Option Bool := none
  isReviewed : Option Bool := none
  limit : Int := 0
  offset : Int := 0
deriving DecidableEq

/-- tagsQuery mirrors the query construction in `Client.ListTags`
(client.go 290-309); note the Go code never serializes `Offset` here. -/
def tagsQuery (params : ListTagsParams) : List (String × String) :=
  (if params.sessionId ≠ "" then [("session_id", params.sessionId)] else []) ++
  (if params.clipId ≠ "" then [("clip_id", params.clipId)] else []) ++
  (if params.playType ≠ "" then [("play_type", params.playType)] else []) ++
  (match params.isImportant with
    | some b => [("is_important", boolString b)]
    | none => []) ++
  (match params.isReviewed with
    | some b => [("is_reviewed", boolString b)]
    | none => []) ++
  (if 0 < params.limit then [("limit", toString params.limit)] else [])

/-- listTags mirrors `Client.ListTags`. -/
def ClientEnv.listTags (env : ClientEnv) (params : ListTagsParams) :
    Except ClientError (PaginatedResponse Tag) × List HTTPRequest :=
  doGet env "/api/v1/tags" (tagsQuery params) env.decodeTagPage

/-- createTag mirrors `Client.CreateTag`. -/
def ClientEnv.createTag (env : ClientEnv) (req : CreateTagRequest) :
    Except ClientError Tag × List HTTPRequest :=
  doPost env "/api/v1/tags" (some (.tagCreate req)) env.decodeTag

/-- ArgValue is one JSON value in a tool-call argument map (Go `interface{}`):
a string, a number (float64 in Go, carried as Int here), a boolean, or a value
of any other JSON shape (null, array, object). -/
inductive ArgValue where
  | str (s : String)
  | num (n : Int)
  | bool (b : Bool)
  | other
deriving DecidableEq

/-- Args is the untyped string-keyed argument map `req.Params.Arguments`
(absent key ↦ `none`). -/
def Args : Type := String → Option ArgValue

/-- setArg updates one key of an argument map (`none` removes the key). -/
def setArg (args : Args) (key : String) (v : Option ArgValue) : Args :=
  fun k => if k = key then v else args k

/-- noArgs is the empty argument map. -/
def noArgs : Args := fun _ => none

/-- asStr mirrors the Go type assertion `v.(string)`: `some` exactly when the
key is present with a string value. -/
def asStr : Option ArgValue → Option String
  | some (.str s) => some s
  | _ => none

/-- asNum mirrors the Go type assertion `v.(float64)` on a decoded JSON
number. -/
def asNum : Option ArgValue → Option Int
  | some (.num n) => some n
  | _ => none

/-- asBool mirrors the Go type assertion `v.(bool)`. -/
def asBool : Option ArgValue → Option Bool
  | some (.bool b) => some b
  | _ => none

/-- strOrEmpty mirrors the Go idiom `s, _ := v.(string)`: the string value, or
the zero value "" when the key is absent or not a string. -/
def strOrEmpty (v : Option ArgValue) : String := (asStr v).getD ""

/-- CallToolResult is the tool result envelope (`mcp.CallToolResult` restricted
to the single text content every handler produces). -/
structure CallToolResult where
  isError : Bool
  text : String
deriving DecidableEq

/-- newToolResultError mirrors `mcp.NewToolResultError`. -/
def newToolResultError (msg : String) : CallToolResult :=
  { isError := true, text := msg }

/-- newToolResultText mirrors `mcp.NewToolResultText`. -/
def newToolResultText (s : String) : CallToolResult :=
  { isError := false, text := s }

/-- HandlerOut pairs the returned tool result with the trace of HTTP requests
the invocation issued. -/
def HandlerOut : Type := CallToolResult × List HTTPRequest

/-- listSessionsArgs is the params block of `makeListSessions` (tools, lines
287-297): start from `ListSessionsParams{Limit: 20}` and overwrite each field
whose argument is present with the asserted type. -/
def listSessionsArgs (args : Args) : ListSessionsParams :=
  { status := strOrEmpty (args "status"),
    sessionType := strOrEmpty (args "session_type"),
    limit := (asNum (args "limit")).getD 20,
    offset := 0 }

/-- makeListSessions mirrors the handler factory `makeListSessions`
(tools, lines 285-307). -/
def makeListSessions (env : ClientEnv) (args : Args) : HandlerOut :=
  match env.listSessions (listSessionsArgs args) with
  | (.error e, tr) => (newToolResultError ("Failed to list sessions: " ++ renderError e), tr)
  | (.ok page, tr) => (newToolResultText (env.renderSessionPage page), tr)

/-- makeCreateSession mirrors the handler factory `makeCreateSession`
(tools, lines 309-338). -/
def makeCreateSession (env : ClientEnv) (args : Args) : HandlerOut :=
  let name := strOrEmpty (args "name")
  let sessionType := strOrEmpty (args "session_type")
  if name = "" ∨ sessionType = "" then
    (newToolResultError "name and session_type are required", [])
  else
    let createReq : CreateSessionRequest :=
      { name := name,
        sessionType := sessionType,
        opponent := asStr (args "opponent"),
        location := asStr (args "location") }
    match env.createSession createReq with
    | (.error e, tr) => (newToolResultError ("Failed to create session: " ++ renderError e), tr)
    | (.ok session, tr) =>
      (newToolResultText ("Session created successfully:\n" ++ env.renderSession session), tr)

/-- makeStartSession mirrors the handler factory `makeStartSession`
(tools, lines 340-354). -/
def makeStartSession (env : ClientEnv) (args : Args) : HandlerOut :=
  let sessionId := strOrEmpty (args "session_id")
  if sessionId = "" then
    (newToolResultError "session_id is required", [])
  else
    match env.startSession sessionId with
    | (.error e, tr) => (newToolResultError ("Failed to start session: " ++ renderError e), tr)
    | (.ok session, tr) =>
      (newToolResultText
        ("Session '" ++ session.name ++ "' started successfully. Status: " ++ session.status), tr)

/-- makePauseSession mirrors the handler factory `makePauseSession`
(tools, lines 356-370). -/
def makePauseSession (env : ClientEnv) (args : Args) : HandlerOut :=
  let sessionId := strOrEmpty (args "session_id")
  if sessionId = "" then
    (newToolResultError "session_id is required", [])
  else
    match env.pauseSession sessionId with
    | (.error e, tr) => (newToolResultError ("Failed to pause session: " ++ renderError e), tr)
    | (.ok session, tr) =>
      (newToolResultText ("Session '" ++ session.name ++ "' paused. Status: " ++ session.status), tr)

/-- makeCompleteSession mirrors the handler factory `makeCompleteSession`
(tools, lines 372-387). -/
def makeCompleteSession (env : ClientEnv) (args : Args) : HandlerOut :=
  let sessionId := strOrEmpty (args "session_id")
  if sessionId = "" then
    (newToolResultError "session_id is required", [])
  else
    match env.completeSession sessionId with
    | (.error e, tr) => (newToolResultError ("Failed to complete session: " ++ renderError e), tr)
    | (.ok session, tr) =>
      (newToolResultText ("Session completed:\n" ++ env.renderSession session), tr)

/-- listClipsArgs is the params block of `makeListClips` (tools, lines
391-407): start from `ListClipsParams{Limit: 20}`; the handler exposes no
channel_id argument, so `channelId` stays at its zero value. -/
def listClipsArgs (args : Args) : ListClipsParams :=
  { sessionId := strOrEmpty (args "session_id"),
    channelId := "",
    status := strOrEmpty (args "status"),
    favorite := asBool (args "favorite"),
    search := strOrEmpty (args "search"),
    limit := (asNum (args "limit")).getD 20,
    offset := 0 }

/-- makeListClips mirrors the handler factory `makeListClips`
(tools, lines 389-417). -/
def makeListClips (env : ClientEnv) (args : Args) : HandlerOut :=
  match env.listClips (listClipsArgs args) with
  | (.error e, tr) => (newToolResultError ("Failed to list clips: " ++ renderError e), tr)
  | (.ok page, tr) => (newToolResultText (env.renderClipPage page), tr)

/-- makeFavoriteClip mirrors the handler factory `makeFavoriteClip`
(tools, lines 419-437). -/
def makeFavoriteClip (env : ClientEnv) (args : Args) : HandlerOut :=
  let clipId := strOrEmpty (args "clip_id")
  if clipId = "" then
    (newToolResultError "clip_id is required", [])
  else
    match env.favoriteClip clipId with
    | (.error e, tr) => (newToolResultError ("Failed to toggle favorite: " ++ renderError e), tr)
    | (.ok clip, tr) =>
      let status := if clip.isFavorite then "added to" else "removed from"
      (newToolResultText ("Clip " ++ status ++ " favorites"), tr)

/-- makeListChannels mirrors the handler factory `makeListChannels`
(tools, lines 439-449). -/
def makeListChannels (env : ClientEnv) (_args : Args) : HandlerOut :=
  match env.listChannels with
  | (.error e, tr) => (newToolResultError ("Failed to list channels: " ++ renderError e), tr)
  | (.ok page, tr) => (newToolResultText (env.renderChannelPage page), tr)

/-- makeActivateChannel mirrors the handler factory `makeActivateChannel`
(tools, lines 451-465). -/
def makeActivateChannel (env : ClientEnv) (args : Args) : HandlerOut :=
  let channelId := strOrEmpty (args "channel_id")
  if channelId = "" then
    (newToolResultError "channel_id is required", [])
  else
    match env.activateChannel channelId with
    | (.error e, tr) => (newToolResultError ("Failed to activate channel: " ++ renderError e), tr)
    | (.ok channel, tr) =>
      (newToolResultText ("Channel '" ++ channel.name ++ "' activated. Status: " ++ channel.status), tr)

/-- makeDeactivateChannel mirrors the handler factory `makeDeactivateChannel`
(tools, lines 467-481). -/
def makeDeactivateChannel (env : ClientEnv) (args : Args) : HandlerOut :=
  let channelId := strOrEmpty (args "channel_id")
  if channelId = "" then
    (newToolResultError "channel_id is required", [])
  else
    match env.deactivateChannel channelId with
    | (.error e, tr) => (newToolResultError ("Failed to deactivate channel: " ++ renderError e), tr)
    | (.ok channel, tr) =>
      (newToolResultText ("Channel '" ++ channel.name ++ "' deactivated. Status: " ++ channel.status), tr)

/-- listTagsArgs is the params block of `makeListTags` (tools, lines
485-504): start from `ListTagsParams{Limit: 50}`. -/
def listTagsArgs (args : Args) : ListTagsParams :=
  { sessionId := strOrEmpty (args "session_id"),
    clipId := strOrEmpty (args "clip_id"),
    playType := strOrEmpty (args "play_type"),
    isImportant := asBool (args "is_important"),
    isReviewed := asBool (args "is_reviewed"),
    limit := (asNum (args "limit")).getD 50,
    offset := 0 }

/-- makeListTags mirrors the handler factory `makeListTags`
(tools, lines 483-514). -/
def makeListTags (env : ClientEnv) (args : Args) : HandlerOut :=
  match env.listTags (listTagsArgs args) with
  | (.error e, tr) => (newToolResultError ("Failed to list tags: " ++ renderError e), tr)
  | (.ok page, tr) => (newToolResultText (env.renderTagPage page), tr)

/-- makeCreateTag mirrors the handler factory `makeCreateTag`
(tools, lines 516-563). -/
def makeCreateTag (env : ClientEnv) (args : Args) : HandlerOut :=
  let clipId := strOrEmpty (args "clip_id")
  let sessionId := strOrEmpty (args "session_id")
  if clipId = "" ∨ sessionId = "" then
    (newToolResultError "clip_id and session_id are required", [])
  else
    let createReq : CreateTagRequest :=
      { clipId := clipId,
        sessionId := sessionId,
        playType := asStr (args "play_type"),
        formation := asStr (args "formation"),
        result := asStr (args "result"),
        down := asNum (args "down"),
        distance := asNum (args "distance"),
        yardsGained := asNum (args "yards_gained"),
        notes := asStr (args "notes") }
    match env.createTag createReq with
    | (.error e, tr) => (newToolResultError ("Failed to create tag: " ++ renderError e), tr)
    | (.ok tag, tr) => (newToolResultText ("Tag created:\n" ++ env.renderTag tag), tr)

/-- ResourceContents mirrors `mcp.TextResourceContents` (uri, MIME type,
text). -/
structure ResourceContents where
  uri : String
  mimeType : String
  text : String
deriving DecidableEq

/-- ResourceOut pairs a resource read outcome — a hard error message or a
content list — with the trace of HTTP requests issued. -/
def ResourceOut : Type := Except String (List ResourceContents) × List HTTPRequest

/-- makeSessionsResource mirrors `makeSessionsResource` (resources.go 48-66):
fetch up to 100 sessions, propagate a client failure as a hard error. -/
def makeSessionsResource (env : ClientEnv) (uri : String) : ResourceOut :=
  match env.listSessions { limit := 100 } with
  | (.error e, tr) => (.error ("failed to fetch sessions: " ++ renderError e), tr)
  | (.ok page, tr) =>
    (.ok [{ uri := uri, mimeType := "application/json", text := env.renderSessionPage page }], tr)

/-- makeClipsResource mirrors `makeClipsResource` (resources.go 69-87). -/
def makeClipsResource (env : ClientEnv) (uri : String) : ResourceOut :=
  match env.listClips { limit := 100 } with
  | (.error e, tr) => (.error ("failed to fetch clips: " ++ renderError e), tr)
  | (.ok page, tr) =>
    (.ok [{ uri := uri, mimeType := "application/json", text := env.renderClipPage page }], tr)

/-- makeChannelsResource mirrors `makeChannelsResource` (resources.go 90-108). -/
def makeChannelsResource (env : ClientEnv) (uri : String) : ResourceOut :=
  match env.listChannels with
  | (.error e, tr) => (.error ("failed to fetch channels: " ++ renderError e), tr)
  | (.ok page, tr) =>
    (.ok [{ uri := uri, mimeType := "application/json", text := env.renderChannelPage page }], tr)

/-- makeTagsResource mirrors `makeTagsResource` (resources.go 110-128). -/
def makeTagsResource (env : ClientEnv) (uri : String) : ResourceOut :=
  match env.listTags { limit := 100 } with
  | (.error e, tr) => (.error ("failed to fetch tags: " ++ renderError e), tr)
  | (.ok page, tr) =>
    (.ok [{ uri := uri, mimeType := "application/json", text := env.renderTagPage page }], tr)

/-! Auxiliary predicates on argument values, substring containment, and sample
data used to instantiate theorems at concrete inputs. -/

/-- isStr tests whether a JSON argument value is a string. -/
def ArgValue.isStr : ArgValue → Bool
  | .str _ => true
  | _ => false

/-- isNum tests whether a JSON argument value is a number. -/
def ArgValue.isNum : ArgValue → Bool
  | .num _ => true
  | _ => false

/-- isBool tests whether a JSON argument value is a boolean. -/
def ArgValue.isBool : ArgValue → Bool
  | .bool _ => true
  | _ => false

/-- A present value that is not a string is read back as `none` by the
string type assertion. -/
theorem asStr_of_not_isStr {v : ArgValue} (h : v.isStr = false) : asStr (some v) = none := by
  cases v <;> simp_all [ArgValue.isStr, asStr]

/-- A present value that is not a number is read back as `none` by the
number type assertion. -/
theorem asNum_of_not_isNum {v : ArgValue} (h : v.isNum = false) : asNum (some v) = none := by
  cases v <;> simp_all [ArgValue.isNum, asNum]

/-- A present value that is not a boolean is read back as `none` by the
boolean type assertion. -/
theorem asBool_of_not_isBool {v : ArgValue} (h : v.isBool = false) : asBool (some v) = none := by
  cases v <;> simp_all [ArgValue.isBool, asBool]

/-- The string assertion on an absent key yields `none`. -/
theorem asStr_none : asStr none = none := rfl

/-- The number assertion on an absent key yields `none`. -/
theorem asNum_none : asNum none = none := rfl

/-- The boolean assertion on an absent key yields `none`. -/
theorem asBool_none : asBool none = none := rfl

/-- ContainsSub hay needle holds when needle occurs contiguously in hay. -/
def ContainsSub (hay needle : String) : Prop :=
  ∃ l r, hay = l ++ needle ++ r

/-- Every string contains itself. -/
theorem containsSub_self (n : String) : ContainsSub n n :=
  ⟨"", "", by rw [String.empty_append, String.append_empty]⟩

/-- Containment is preserved by appending on the left. -/
theorem containsSub_appLeft (a : String) {b n : String} (h : ContainsSub b n) :
    ContainsSub (a ++ b) n := by
  obtain ⟨l, r, hb⟩ := h
  exact ⟨a ++ l, r, by simp [hb, String.append_assoc]⟩

/-- Containment is preserved by appending on the right. -/
theorem containsSub_appRight {a n : String} (b : String) (h : ContainsSub a n) :
    ContainsSub (a ++ b) n := by
  obtain ⟨l, r, ha⟩ := h
  exact ⟨l, r ++ b, by simp [ha, String.append_assoc]⟩

/-- The error text `prefixText ++ renderError (apiError st b)` contains both the
rendered status code and the raw body. -/
theorem errorWrap_contains (pfx : String) (st : Nat) (b : String) :
    ContainsSub (pfx ++ renderError (.apiError st b)) (toString st) ∧
    ContainsSub (pfx ++ renderError (.apiError st b)) b := by
  constructor
  · exact ⟨pfx ++ "API error ", ": " ++ b, by simp [renderError, String.append_assoc]⟩
  · exact ⟨pfx ++ "API error " ++ toString st ++ ": ", "",
      by simp [renderError, String.append_assoc, String.append_empty]⟩

/-- sampleSession is a concrete session used to instantiate theorems. -/
def sampleSession : Session :=
  { id := "session-123", name := "Game 1", sessionType := "game", status := "active" }

/-- sampleClip is a concrete clip used to instantiate theorems. -/
def sampleClip : Clip :=
  { id := "clip-1", sessionId := "session-1", channelId := "channel-1", isFavorite := true }

/-- sampleChannel is a concrete channel used to instantiate theorems. -/
def sampleChannel : Channel :=
  { id := "channel-1", name := "Main Camera", status := "active" }

/-- sampleTag is a concrete tag used to instantiate theorems. -/
def sampleTag : Tag :=
  { id := "tag-1", clipId := "clip-1", sessionId := "session-1" }

/-- constEnv is a concrete environment whose transport always yields the given
result and whose codecs succeed on the sample entities. -/
def constEnv (res : HTTPResult) : ClientEnv :=
  { transport := fun _ => res,
    decodeSessionPage := fun _ => .ok { data := [] },
    decodeSession := fun _ => .ok sampleSession,
    decodeClipPage := fun _ => .ok { data := [] },
    decodeClip := fun _ => .ok sampleClip,
    decodeChannelPage := fun _ => .ok { data := [] },
    decodeChannel := fun _ => .ok sampleChannel,
    decodeTagPage := fun _ => .ok { data := [] },
    decodeTag := fun _ => .ok sampleTag,
    renderSessionPage := fun _ => "[]",
    renderSession := fun _ => "{}",
    renderClipPage := fun _ => "[]",
    renderChannelPage := fun _ => "[]",
    renderTagPage := fun _ => "[]",
    renderTag := fun _ => "{}" }

/-- The list_sessions handler always issues exactly one GET to /api/v1/sessions
with the query built from its params block. -/
theorem makeListSessions_trace (env : ClientEnv) (args : Args) :
    (makeListSessions env args).2 =
      [{ method := "GET", path := "/api/v1/sessions",
         query := sessionsQuery (listSessionsArgs args), body := none }] := by
  simp only [makeListSessions, ClientEnv.listSessions, doGet]
  split <;> simp_all

/-- The list_clips handler always issues exactly one GET to /api/v1/clips
with the query built from its params block. -/
theorem makeListClips_trace (env : ClientEnv) (args : Args) :
    (makeListClips env args).2 =
      [{ method := "GET", path := "/api/v1/clips",
         query := clipsQuery (listClipsArgs args), body := none }] := by
  simp only [makeListClips, ClientEnv.listClips, doGet]
  split <;> simp_all

/-- The list_tags handler always issues exactly one GET to /api/v1/tags
with the query built from its params block. -/
theorem makeListTags_trace (env : ClientEnv) (args : Args) :
    (makeListTags env args).2 =
      [{ method := "GET", path := "/api/v1/tags",
         query := tagsQuery (listTagsArgs args), body := none }] := by
  simp only [makeListTags, ClientEnv.listTags, doGet]
  split <;> simp_all

/-! Claim theorems. -/

/-- C1: for every tool whose schema marks an identifier argument as required
(start_session, pause_session, complete_session, favorite_clip,
activate_channel, deactivate_channel, create_tag), invoking the handler with
that argument absent from the argument map returns an error-flagged result
(IsError true) and issues no upstream HTTP request; in particular create_tag
with session_id absent (clip_id arbitrary, in particular present) errors
without any upstream call. -/
theorem C1_missing_required_arg (env : ClientEnv) (args : Args) :
    (args "session_id" = none →
      ((makeStartSession env args).1.isError = true ∧ (makeStartSession env args).2 = []) ∧
      ((makePauseSession env args).1.isError = true ∧ (makePauseSession env args).2 = []) ∧
      ((makeCompleteSession env args).1.isError = true ∧ (makeCompleteSession env args).2 = []) ∧
      ((makeCreateTag env args).1.isError = true ∧ (makeCreateTag env args).2 = [])) ∧
    (args "clip_id" = none →
      ((makeFavoriteClip env args).1.isError = true ∧ (makeFavoriteClip env args).2 = []) ∧
      ((makeCreateTag env args).1.isError = true ∧ (makeCreateTag env args).2 = [])) ∧
    (args "channel_id" = none →
      ((makeActivateChannel env args).1.isError = true ∧ (makeActivateChannel env args).2 = []) ∧
      ((makeDeactivateChannel env args).1.isError = true ∧ (makeDeactivateChannel env args).2 = [])) := by
  refine ⟨fun h => ?_, fun h => ?_, fun h => ?_⟩ <;>
    simp [makeStartSession, makePauseSession, makeCompleteSession, makeCreateTag,
      makeFavoriteClip, makeActivateChannel, makeDeactivateChannel,
      strOrEmpty, asStr, h, newToolResultError]

/-- C1 witness: create_tag invoked with clip_id present but session_id absent
returns an error-flagged result and issues no upstream call. -/
theorem C1_witness :
    (makeCreateTag (constEnv (.response 200 "{}"))
        (setArg noArgs "clip_id" (some (.str "clip-1")))).1.isError = true ∧
    (makeCreateTag (constEnv (.response 200 "{}"))
        (setArg noArgs "clip_id" (some (.str "clip-1")))).2 = [] :=
  ((C1_missing_required_arg (constEnv (.response 200 "{}"))
    (setArg noArgs "clip_id" (some (.str "clip-1")))).1 (by decide)).2.2.2

/-- C10: for every tool with a required string identifier argument, invoking it
with that argument present but equal to "" produces exactly the same
error-flagged result as invoking it with the argument absent, and issues no
upstream call. -/
theorem C10_empty_id_equals_absent (env : ClientEnv) (args : Args) :
    (makeStartSession env (setArg args "session_id" (some (.str ""))) =
        makeStartSession env (setArg args "session_id" none) ∧
      (makeStartSession env (setArg args "session_id" (some (.str "")))).1.isError = true ∧
      (makeStartSession env (setArg args "session_id" (some (.str "")))).2 = []) ∧
    (makePauseSession env (setArg args "session_id" (some (.str ""))) =
        makePauseSession env (setArg args "session_id" none) ∧
      (makePauseSession env (setArg args "session_id" (some (.str "")))).1.isError = true ∧
      (makePauseSession env (setArg args "session_id" (some (.str "")))).2 = []) ∧
    (makeCompleteSession env (setArg args "session_id" (some (.str ""))) =
        makeCompleteSession env (setArg args "session_id" none) ∧
      (makeCompleteSession env (setArg args "session_id" (some (.str "")))).1.isError = true ∧
      (makeCompleteSession env (setArg args "session_id" (some (.str "")))).2 = []) ∧
    (makeFavoriteClip env (setArg args "clip_id" (some (.str ""))) =
        makeFavoriteClip env (setArg args "clip_id" none) ∧
      (makeFavoriteClip env (setArg args "clip_id" (some (.str "")))).1.isError = true ∧
      (makeFavoriteClip env (setArg args "clip_id" (some (.str "")))).2 = []) ∧
    (makeActivateChannel env (setArg args "channel_id" (some (.str ""))) =
        makeActivateChannel env (setArg args "channel_id" none) ∧
      (makeActivateChannel env (setArg args "channel_id" (some (.str "")))).1.isError = true ∧
      (makeActivateChannel env (setArg args "channel_id" (some (.str "")))).2 = []) ∧
    (makeDeactivateChannel env (setArg args "channel_id" (some (.str ""))) =
        makeDeactivateChannel env (setArg args "channel_id" none) ∧
      (makeDeactivateChannel env (setArg args "channel_id" (some (.str "")))).1.isError = true ∧
      (makeDeactivateChannel env (setArg args "channel_id" (some (.str "")))).2 = []) ∧
    (makeCreateTag env (setArg args "clip_id" (some (.str ""))) =
        makeCreateTag env (setArg args "clip_id" none) ∧
      (makeCreateTag env (setArg args "clip_id" (some (.str "")))).1.isError = true ∧
      (makeCreateTag env (setArg args "clip_id" (some (.str "")))).2 = []) ∧
    (makeCreateTag env (setArg args "session_id" (some (.str ""))) =
        makeCreateTag env (setArg args "session_id" none) ∧
      (makeCreateTag env (setArg args "session_id" (some (.str "")))).1.isError = true ∧
      (makeCreateTag env (setArg args "session_id" (some (.str "")))).2 = []) := by
  repeat' apply And.intro
  all_goals
    simp [makeStartSession, makePauseSession, makeCompleteSession, makeCreateTag,
      makeFavoriteClip, makeActivateChannel, makeDeactivateChannel,
      setArg, strOrEmpty, asStr, newToolResultError]

/-- C5: for every tool handler and every argument key it reads, a present value
of the wrong type for that key makes the handler behave exactly as if the key
were absent (grouped by the expected type of each key: strings, then numbers,
then booleans). -/
theorem C5_wrong_typed_as_absent (env : ClientEnv) (args : Args) (v : ArgValue) :
    (v.isStr = false →
      (makeListSessions env (setArg args "status" (some v)) =
        makeListSessions env (setArg args "status" none)) ∧
      (makeListSessions env (setArg args "session_type" (some v)) =
        makeListSessions env (setArg args "session_type" none)) ∧
      (makeCreateSession env (setArg args "name" (some v)) =
        makeCreateSession env (setArg args "name" none)) ∧
      (makeCreateSession env (setArg args "session_type" (some v)) =
        makeCreateSession env (setArg args "session_type" none)) ∧
      (makeCreateSession env (setArg args "opponent" (some v)) =
        makeCreateSession env (setArg args "opponent" none)) ∧
      (makeCreateSession env (setArg args "location" (some v)) =
        makeCreateSession env (setArg args "location" none)) ∧
      (makeStartSession env (setArg args "session_id" (some v)) =
        makeStartSession env (setArg args "session_id" none)) ∧
      (makePauseSession env (setArg args "session_id" (some v)) =
        makePauseSession env (setArg args "session_id" none)) ∧
      (makeCompleteSession env (setArg args "session_id" (some v)) =
        makeCompleteSession env (setArg args "session_id" none)) ∧
      (makeListClips env (setArg args "session_id" (some v)) =
        makeListClips env (setArg args "session_id" none)) ∧
      (makeListClips env (setArg args "status" (some v)) =
        makeListClips env (setArg args "status" none)) ∧
      (makeListClips env (setArg args "search" (some v)) =
        makeListClips env (setArg args "search" none)) ∧
      (makeFavoriteClip env (setArg args "clip_id" (some v)) =
        makeFavoriteClip env (setArg args "clip_id" none)) ∧
      (makeActivateChannel env (setArg args "channel_id" (some v)) =
        makeActivateChannel env (setArg args "channel_id" none)) ∧
      (makeDeactivateChannel env (setArg args "channel_id" (some v)) =
        makeDeactivateChannel env (setArg args "channel_id" none)) ∧
      (makeListTags env (setArg args "session_id" (some v)) =
        makeListTags env (setArg args "session_id" none)) ∧
      (makeListTags env (setArg args "clip_id" (some v)) =
        makeListTags env (setArg args "clip_id" none)) ∧
      (makeListTags env (setArg args "play_type" (some v)) =
        makeListTags env (setArg args "play_type" none)) ∧
      (makeCreateTag env (setArg args "clip_id" (some v)) =
        makeCreateTag env (setArg args "clip_id" none)) ∧
      (makeCreateTag env (setArg args "session_id" (some v)) =
        makeCreateTag env (setArg args "session_id" none)) ∧
      (makeCreateTag env (setArg args "play_type" (some v)) =
        makeCreateTag env (setArg args "play_type" none)) ∧
      (makeCreateTag env (setArg args "formation" (some v)) =
        makeCreateTag env (setArg args "formation" none)) ∧
      (makeCreateTag env (setArg args "result" (some v)) =
        makeCreateTag env (setArg args "result" none)) ∧
      (makeCreateTag env (setArg args "notes" (some v)) =
        makeCreateTag env (setArg args "notes" none))) ∧
    (v.isNum = false →
      (makeListSessions env (setArg args "limit" (some v)) =
        makeListSessions env (setArg args "limit" none)) ∧
      (makeListClips env (setArg args "limit" (some v)) =
        makeListClips env (setArg args "limit" none)) ∧
      (makeListTags env (setArg args "limit" (some v)) =
        makeListTags env (setArg args "limit" none)) ∧
      (makeCreateTag env (setArg args "down" (some v)) =
        makeCreateTag env (setArg args "down" none)) ∧
      (makeCreateTag env (setArg args "distance" (some v)) =
        makeCreateTag env (setArg args "distance" none)) ∧
      (makeCreateTag env (setArg args "yards_gained" (some v)) =
        makeCreateTag env (setArg args "yards_gained" none))) ∧
    (v.isBool = false →
      (makeListClips env (setArg args "favorite" (some v)) =
        makeListClips env (setArg args "favorite" none)) ∧
      (makeListTags env (setArg args "is_important" (some v)) =
        makeListTags env (setArg args "is_important" none)) ∧
      (makeListTags env (setArg args "is_reviewed" (some v)) =
        makeListTags env (setArg args "is_reviewed" none))) := by
  refine ⟨fun hv => ?_, fun hv => ?_, fun hv => ?_⟩
  · have ha := asStr_of_not_isStr hv
    repeat' apply And.intro
    all_goals
      simp [makeListSessions, makeCreateSession, makeStartSession, makePauseSession,
        makeCompleteSession, makeListClips, makeFavoriteClip, makeActivateChannel,
        makeDeactivateChannel, makeListTags, makeCreateTag,
        listSessionsArgs, listClipsArgs, listTagsArgs, setArg, strOrEmpty,
        ha, asStr_none, asNum_none, asBool_none]
  · have ha := asNum_of_not_isNum hv
    repeat' apply And.intro
    all_goals
      simp [makeListSessions, makeListClips, makeListTags, makeCreateTag,
        listSessionsArgs, listClipsArgs, listTagsArgs, setArg, strOrEmpty,
        ha, asStr_none, asNum_none, asBool_none]
  · have ha := asBool_of_not_isBool hv
    repeat' apply And.intro
    all_goals
      simp [makeListClips, makeListTags, listClipsArgs, listTagsArgs, setArg, strOrEmpty,
        ha, asStr_none, asNum_none, asBool_none]

/-- C5 witness: with a non-string, non-number, non-boolean value present, the
three groups instantiate at concrete inputs. -/
theorem C5_witness :
    (makeListSessions (constEnv (.response 200 "{}")) (setArg noArgs "status" (some .other)) =
      makeListSessions (constEnv (.response 200 "{}")) (setArg noArgs "status" none)) ∧
    (makeListSessions (constEnv (.response 200 "{}")) (setArg noArgs "limit" (some .other)) =
      makeListSessions (constEnv (.response 200 "{}")) (setArg noArgs "limit" none)) ∧
    (makeListClips (constEnv (.response 200 "{}")) (setArg noArgs "favorite" (some .other)) =
      makeListClips (constEnv (.response 200 "{}")) (setArg noArgs "favorite" none)) :=
  ⟨((C5_wrong_typed_as_absent (constEnv (.response 200 "{}")) noArgs .other).1 (by decide)).1,
   (((C5_wrong_typed_as_absent (constEnv (.response 200 "{}")) noArgs .other).2.1 (by decide)).1),
   (((C5_wrong_typed_as_absent (constEnv (.response 200 "{}")) noArgs .other).2.2 (by decide)).1)⟩

/-- Membership in a conditional singleton forces equality with its element. -/
theorem mem_ite_single {α : Type} {c : Prop} [Decidable c] {e x : α}
    (h : e ∈ if c then [x] else []) : e = x := by
  split at h <;> simp_all

/-- A status entry occurs in the sessions query exactly for a non-empty status
param. -/
theorem sessionsQuery_status (p : ListSessionsParams) (s : String) :
    ("status", s) ∈ sessionsQuery p ↔ (p.status = s ∧ s ≠ "") := by
  unfold sessionsQuery
  split_ifs <;> simp_all [eq_comm]

/-- A session_type entry occurs in the sessions query exactly for a non-empty
session type param. -/
theorem sessionsQuery_sessionType (p : ListSessionsParams) (s : String) :
    ("session_type", s) ∈ sessionsQuery p ↔ (p.sessionType = s ∧ s ≠ "") := by
  unfold sessionsQuery
  split_ifs <;> simp_all [eq_comm]

/-- A limit entry occurs in the sessions query exactly for a positive limit
param. -/
theorem sessionsQuery_limit (p : ListSessionsParams) (s : String) :
    ("limit", s) ∈ sessionsQuery p ↔ (s = toString p.limit ∧ 0 < p.limit) := by
  unfold sessionsQuery
  split_ifs <;> simp_all [eq_comm]

/-- Every entry of a sessions query is one of the four filter keys. -/
theorem sessionsQuery_keys (p : ListSessionsParams) :
    ∀ e ∈ sessionsQuery p,
      e.1 = "status" ∨ e.1 = "session_type" ∨ e.1 = "limit" ∨ e.1 = "offset" := by
  intro e he
  unfold sessionsQuery at he
  simp only [List.mem_append] at he
  rcases he with ((he | he) | he) | he <;> (obtain rfl := mem_ite_single he) <;> simp

/-- C9: when the limit argument is absent or not a number, list_sessions and
list_clips issue their request with limit=20 and list_tags with limit=50. -/
theorem C9_default_limit (env : ClientEnv) (args : Args)
    (h : asNum (args "limit") = none) :
    (∃ r, (makeListSessions env args).2 = [r] ∧ ("limit", "20") ∈ r.query) ∧
    (∃ r, (makeListClips env args).2 = [r] ∧ ("limit", "20") ∈ r.query) ∧
    (∃ r, (makeListTags env args).2 = [r] ∧ ("limit", "50") ∈ r.query) := by
  have h20 : toString (20 : Int) = "20" := by decide
  have h50 : toString (50 : Int) = "50" := by decide
  refine ⟨⟨_, makeListSessions_trace env args, ?_⟩,
          ⟨_, makeListClips_trace env args, ?_⟩,
          ⟨_, makeListTags_trace env args, ?_⟩⟩
  · simp [sessionsQuery, listSessionsArgs, h, h20]
  · simp [clipsQuery, listClipsArgs, h, h20]
  · simp [tagsQuery, listTagsArgs, h, h50]

/-- C9 witness: with no arguments at all, the three list tools send their
default limits. -/
theorem C9_witness :
    (∃ r, (makeListSessions (constEnv (.response 200 "{}")) noArgs).2 = [r] ∧
      ("limit", "20") ∈ r.query) ∧
    (∃ r, (makeListClips (constEnv (.response 200 "{}")) noArgs).2 = [r] ∧
      ("limit", "20") ∈ r.query) ∧
    (∃ r, (makeListTags (constEnv (.response 200 "{}")) noArgs).2 = [r] ∧
      ("limit", "50") ∈ r.query) :=
  C9_default_limit (constEnv (.response 200 "{}")) noArgs (by decide)

/-- C2 counterexample: with an argument map in which "limit" is absent, the
list_sessions handler still issues a request whose query contains limit=20, so
the query does not omit every filter that is absent from the map. -/
theorem C2_counterexample :
    noArgs "limit" = none ∧
    (makeListSessions (constEnv (.response 200 "{}")) noArgs).2 =
      [{ method := "GET", path := "/api/v1/sessions",
         query := [("limit", "20")], body := none }] ∧
    ("limit", "20") ∈
      (sessionsQuery (listSessionsArgs noArgs)) := by
  refine ⟨rfl, ?_, by decide⟩
  rw [makeListSessions_trace]
  decide

/-- A non-empty string filter entry corresponds exactly to a string argument
present in the map with that (non-empty) value. -/
theorem strOrEmpty_filter_iff (o : Option ArgValue) (s : String) :
    (strOrEmpty o = s ∧ s ≠ "") ↔ (o = some (.str s) ∧ s ≠ "") := by
  rcases o with _ | v
  · simp only [strOrEmpty, asStr, Option.getD_none]
    constructor
    · rintro ⟨rfl, h2⟩
      exact absurd rfl h2
    · rintro ⟨h, _⟩
      exact absurd h (by simp)
  · cases v <;> simp [strOrEmpty, asStr] <;> exact fun h => h.symm

/-- A limit entry corresponds exactly to a positive numeric limit argument, or
to the default of 20 when the limit argument is absent or not a number. -/
theorem limit_filter_iff (o : Option ArgValue) (s : String) :
    (s = toString ((asNum o).getD 20) ∧ 0 < (asNum o).getD 20) ↔
      (∃ n : Int, s = toString n ∧ 0 < n ∧
        (o = some (.num n) ∨ (asNum o = none ∧ n = 20))) := by
  have h020 : (0 : Int) < 20 := by decide
  rcases o with _ | v
  · simp [asNum, h020]
  · cases v <;> simp [asNum, h020]

/-- Every entry of a sessions query with a zero offset param is a status,
session_type or limit entry. -/
theorem sessionsQuery_keys_noOffset (p : ListSessionsParams) (hp : p.offset = 0) :
    ∀ e ∈ sessionsQuery p, e.1 = "status" ∨ e.1 = "session_type" ∨ e.1 = "limit" := by
  intro e he
  unfold sessionsQuery at he
  rw [hp] at he
  simp only [List.mem_append] at he
  rcases he with ((he | he) | he) | he <;>
    first
      | (rw [if_neg (lt_irrefl (0 : Int))] at he
         exact absurd he (List.not_mem_nil e))
      | (obtain rfl := mem_ite_single he; simp)

/-- C2 amended: list_sessions issues one GET to /api/v1/sessions whose query
contains exactly the supplied non-empty status and session_type values, omits
those filters when absent (or empty, or of the wrong type), and contains a
limit entry exactly for a supplied positive numeric limit — or limit=20 when
the limit argument is absent or not a number; no other parameter is sent. -/
theorem C2_amended_query_params (env : ClientEnv) (args : Args) :
    ∃ q, (makeListSessions env args).2 =
        [{ method := "GET", path := "/api/v1/sessions", query := q, body := none }] ∧
      (∀ s, ("status", s) ∈ q ↔ (args "status" = some (.str s) ∧ s ≠ "")) ∧
      (∀ s, ("session_type", s) ∈ q ↔ (args "session_type" = some (.str s) ∧ s ≠ "")) ∧
      (∀ s, ("limit", s) ∈ q ↔ (∃ n : Int, s = toString n ∧ 0 < n ∧
        (args "limit" = some (.num n) ∨ (asNum (args "limit") = none ∧ n = 20)))) ∧
      (∀ e ∈ q, e.1 = "status" ∨ e.1 = "session_type" ∨ e.1 = "limit") := by
  refine ⟨sessionsQuery (listSessionsArgs args), makeListSessions_trace env args,
    ?_, ?_, ?_, sessionsQuery_keys_noOffset _ rfl⟩
  · intro s
    rw [sessionsQuery_status]
    exact strOrEmpty_filter_iff (args "status") s
  · intro s
    rw [sessionsQuery_sessionType]
    exact strOrEmpty_filter_iff (args "session_type") s
  · intro s
    rw [sessionsQuery_limit]
    exact limit_filter_iff (args "limit") s

/-- C2 amended witness: the amended statement instantiated at a concrete
environment and the empty argument map. -/
theorem C2_witness :
    ∃ q, (makeListSessions (constEnv (.response 200 "{}")) noArgs).2 =
        [{ method := "GET", path := "/api/v1/sessions", query := q, body := none }] ∧
      (∀ s, ("status", s) ∈ q ↔ (noArgs "status" = some (.str s) ∧ s ≠ "")) ∧
      (∀ s, ("session_type", s) ∈ q ↔ (noArgs "session_type" = some (.str s) ∧ s ≠ "")) ∧
      (∀ s, ("limit", s) ∈ q ↔ (∃ n : Int, s = toString n ∧ 0 < n ∧
        (noArgs "limit" = some (.num n) ∨ (asNum (noArgs "limit") = none ∧ n = 20)))) ∧
      (∀ e ∈ q, e.1 = "status" ∨ e.1 = "session_type" ∨ e.1 = "limit") :=
  C2_amended_query_params (constEnv (.response 200 "{}")) noArgs

/-- ErrFlagged out st b states that a handler outcome is error-flagged and its
text contains both the rendered status code and the raw body. -/
def ErrFlagged (out : HandlerOut) (st : Nat) (b : String) : Prop :=
  out.1.isError = true ∧
  ContainsSub out.1.text (toString st) ∧
  ContainsSub out.1.text b

/-- A handler outcome whose result wraps an API error with some message
pattern is error-flagged with the status and body in its text. -/
theorem errFlagged_of_eq (pfx : String) {st : Nat} {b : String} {out : HandlerOut}
    (h : out.1 = newToolResultError (pfx ++ renderError (.apiError st b))) :
    ErrFlagged out st b := by
  refine ⟨by rw [h]; rfl, ?_, ?_⟩
  · rw [h]
    exact (errorWrap_contains pfx st b).1
  · rw [h]
    exact (errorWrap_contains pfx st b).2

/-- C3: for every tool operation, when the upstream responds with a status of
at least 400, the handler returns an error-flagged result whose text contains
the upstream status code and the upstream body (tools with required arguments
are invoked with those arguments valid, so that the request is issued). -/
theorem C3_upstream_error_flagged (env : ClientEnv) (st : Nat) (b : String) (args : Args)
    (htr : env.transport = fun _ => .response st b) (hst : 400 ≤ st) :
    ErrFlagged (makeListSessions env args) st b ∧
    ErrFlagged (makeListClips env args) st b ∧
    ErrFlagged (makeListChannels env args) st b ∧
    ErrFlagged (makeListTags env args) st b ∧
    (∀ nm ty, nm ≠ "" → ty ≠ "" →
      ErrFlagged (makeCreateSession env
        (setArg (setArg args "name" (some (.str nm))) "session_type" (some (.str ty)))) st b) ∧
    (∀ sid, sid ≠ "" →
      ErrFlagged (makeStartSession env (setArg args "session_id" (some (.str sid)))) st b) ∧
    (∀ sid, sid ≠ "" →
      ErrFlagged (makePauseSession env (setArg args "session_id" (some (.str sid)))) st b) ∧
    (∀ sid, sid ≠ "" →
      ErrFlagged (makeCompleteSession env (setArg args "session_id" (some (.str sid)))) st b) ∧
    (∀ cid, cid ≠ "" →
      ErrFlagged (makeFavoriteClip env (setArg args "clip_id" (some (.str cid)))) st b) ∧
    (∀ ch, ch ≠ "" →
      ErrFlagged (makeActivateChannel env (setArg args "channel_id" (some (.str ch)))) st b) ∧
    (∀ ch, ch ≠ "" →
      ErrFlagged (makeDeactivateChannel env (setArg args "channel_id" (some (.str ch)))) st b) ∧
    (∀ cid sid, cid ≠ "" → sid ≠ "" →
      ErrFlagged (makeCreateTag env
        (setArg (setArg args "clip_id" (some (.str cid))) "session_id" (some (.str sid)))) st b) := by
  refine ⟨?_, ?_, ?_, ?_, ?_, ?_, ?_, ?_, ?_, ?_, ?_, ?_⟩
  · exact errFlagged_of_eq "Failed to list sessions: "
      (by simp [makeListSessions, ClientEnv.listSessions, doGet, doRequest, htr, hst])
  · exact errFlagged_of_eq "Failed to list clips: "
      (by simp [makeListClips, ClientEnv.listClips, doGet, doRequest, htr, hst])
  · exact errFlagged_of_eq "Failed to list channels: "
      (by simp [makeListChannels, ClientEnv.listChannels, doGet, doRequest, htr, hst])
  · exact errFlagged_of_eq "Failed to list tags: "
      (by simp [makeListTags, ClientEnv.listTags, doGet, doRequest, htr, hst])
  · intro nm ty hnm hty
    exact errFlagged_of_eq "Failed to create session: "
      (by simp [makeCreateSession, ClientEnv.createSession, doPost, doRequest, htr, hst,
        setArg, strOrEmpty, asStr, hnm, hty])
  · intro sid hsid
    exact errFlagged_of_eq "Failed to start session: "
      (by simp [makeStartSession, ClientEnv.startSession, doPost, doRequest, htr, hst,
        setArg, strOrEmpty, asStr, hsid])
  · intro sid hsid
    exact errFlagged_of_eq "Failed to pause session: "
      (by simp [makePauseSession, ClientEnv.pauseSession, doPost, doRequest, htr, hst,
        setArg, strOrEmpty, asStr, hsid])
  · intro sid hsid
    exact errFlagged_of_eq "Failed to complete session: "
      (by simp [makeCompleteSession, ClientEnv.completeSession, doPost, doRequest, htr, hst,
        setArg, strOrEmpty, asStr, hsid])
  · intro cid hcid
    exact errFlagged_of_eq "Failed to toggle favorite: "
      (by simp [makeFavoriteClip, ClientEnv.favoriteClip, doPost, doRequest, htr, hst,
        setArg, strOrEmpty, asStr, hcid])
  · intro ch hch
    exact errFlagged_of_eq "Failed to activate channel: "
      (by simp [makeActivateChannel, ClientEnv.activateChannel, doPost, doRequest, htr, hst,
        setArg, strOrEmpty, asStr, hch])
  · intro ch hch
    exact errFlagged_of_eq "Failed to deactivate channel: "
      (by simp [makeDeactivateChannel, ClientEnv.deactivateChannel, doPost, doRequest, htr, hst,
        setArg, strOrEmpty, asStr, hch])
  · intro cid sid hcid hsid
    exact errFlagged_of_eq "Failed to create tag: "
      (by simp [makeCreateTag, ClientEnv.createTag, doPost, doRequest, htr, hst,
        setArg, strOrEmpty, asStr, hcid, hsid])

/-- C3 witness: with an upstream that always answers 500 "boom", list_sessions
and a well-formed start_session both produce error-flagged results carrying
status and body. -/
theorem C3_witness :
    ErrFlagged (makeListSessions (constEnv (.response 500 "boom")) noArgs) 500 "boom" ∧
    ErrFlagged (makeStartSession (constEnv (.response 500 "boom"))
      (setArg noArgs "session_id" (some (.str "session-123")))) 500 "boom" :=
  ⟨(C3_upstream_error_flagged (constEnv (.response 500 "boom")) 500 "boom" noArgs rfl
      (by decide)).1,
   (C3_upstream_error_flagged (constEnv (.response 500 "boom")) 500 "boom" noArgs rfl
      (by decide)).2.2.2.2.2.1 "session-123" (by decide)⟩

/-- C4 counterexample: a 300 (non-2xx) upstream response is not surfaced as an
error by the client — with a decoder that succeeds, listSessions returns ok,
because doRequest only treats status ≥ 400 as an API error. -/
theorem C4_counterexample :
    ((constEnv (.response 300 "{}")).listSessions {}).1 =
      Except.ok ({ data := [] } : PaginatedResponse Session) := rfl

/-- C4 amended: doRequest surfaces every response with status ≥ 400 as an error
carrying the status code and raw body; a transport failure is surfaced as a
request-failed error; below 400 the body is decoded, a decoding failure being
surfaced as a decode-failed error distinct from the request-failed form; a
successful decode below 400 is returned as ok (so 3xx statuses are not
errors). -/
theorem C4_amended_doRequest {α : Type} (decode : String → Except String α) :
    (∀ st b, 400 ≤ st → doRequest (.response st b) decode = .error (.apiError st b)) ∧
    (∀ msg, doRequest (.transportError msg) decode = .error (.requestFailed msg)) ∧
    (∀ st b m, st < 400 → decode b = .error m →
      doRequest (.response st b) decode = .error (.decodeFailed m)) ∧
    (∀ st b v, st < 400 → decode b = .ok v →
      doRequest (.response st b) decode = .ok v) ∧
    (∀ msg m, ClientError.requestFailed msg ≠ ClientError.decodeFailed m) := by
  refine ⟨?_, ?_, ?_, ?_, ?_⟩
  · intro st b h
    simp [doRequest, h]
  · intro msg
    rfl
  · intro st b m h hd
    simp [doRequest, Nat.not_le.mpr h, hd]
  · intro st b v h hd
    simp [doRequest, Nat.not_le.mpr h, hd]
  · intro msg m h
    exact ClientError.noConfusion h

/-- C4 amended witness: concrete instances of the API-error and decode-error
cases of doRequest. -/
theorem C4_witness :
    doRequest (.response 500 "x") (fun _ => Except.ok (0 : Nat)) =
      .error (.apiError 500 "x") ∧
    doRequest (.response 200 "x") (fun _ => (Except.error "bad json" : Except String Nat)) =
      .error (.decodeFailed "bad json") :=
  ⟨(C4_amended_doRequest (fun _ => Except.ok (0 : Nat))).1 500 "x" (by decide),
   (C4_amended_doRequest (fun _ => (Except.error "bad json" : Except String Nat))).2.2.1
      200 "x" "bad json" (by decide) rfl⟩

/-- C6: start_session with session_id "session-123" issues POST
/api/v1/sessions/session-123/start, and when the response decodes to a session
with status "active" the result is not error-flagged and its text contains
"started successfully" and "active". -/
theorem C6_start_session_success (env : ClientEnv) (args : Args) (st : Nat) (b : String)
    (s : Session)
    (htr : env.transport
      { method := "POST", path := "/api/v1/sessions/session-123/start",
        query := [], body := none } = .response st b)
    (hst : st < 400) (hdec : env.decodeSession b = .ok s) (hs : s.status = "active") :
    (makeStartSession env (setArg args "session_id" (some (.str "session-123")))).2 =
      [{ method := "POST", path := "/api/v1/sessions/session-123/start",
         query := [], body := none }] ∧
    (makeStartSession env (setArg args "session_id" (some (.str "session-123")))).1.isError
      = false ∧
    ContainsSub
      (makeStartSession env (setArg args "session_id" (some (.str "session-123")))).1.text
      "started successfully" ∧
    ContainsSub
      (makeStartSession env (setArg args "session_id" (some (.str "session-123")))).1.text
      "active" := by
  have hpath : "/api/v1/sessions/" ++ "session-123" ++ "/start" =
      "/api/v1/sessions/session-123/start" := by decide
  have hout : makeStartSession env (setArg args "session_id" (some (.str "session-123"))) =
      (newToolResultText
        ("Session '" ++ s.name ++ "' started successfully. Status: " ++ s.status),
       [{ method := "POST", path := "/api/v1/sessions/session-123/start",
          query := [], body := none }]) := by
    simp [makeStartSession, ClientEnv.startSession, doPost, doRequest,
      setArg, strOrEmpty, asStr, hpath, htr, Nat.not_le.mpr hst, hdec]
  rw [hout]
  refine ⟨rfl, rfl, ?_, ?_⟩
  · exact containsSub_appRight s.status
      (containsSub_appLeft ("Session '" ++ s.name) ⟨"' ", ". Status: ", by decide⟩)
  · rw [hs]
    exact containsSub_appLeft
      ("Session '" ++ s.name ++ "' started successfully. Status: ") (containsSub_self "active")

/-- C6 witness: the success path instantiated with a concrete environment
whose upstream answers 200 and decodes to the sample active session. -/
theorem C6_witness :
    (makeStartSession (constEnv (.response 200 "{}"))
        (setArg noArgs "session_id" (some (.str "session-123")))).2 =
      [{ method := "POST", path := "/api/v1/sessions/session-123/start",
         query := [], body := none }] ∧
    (makeStartSession (constEnv (.response 200 "{}"))
        (setArg noArgs "session_id" (some (.str "session-123")))).1.isError = false ∧
    ContainsSub (makeStartSession (constEnv (.response 200 "{}"))
        (setArg noArgs "session_id" (some (.str "session-123")))).1.text
      "started successfully" ∧
    ContainsSub (makeStartSession (constEnv (.response 200 "{}"))
        (setArg noArgs "session_id" (some (.str "session-123")))).1.text "active" :=
  C6_start_session_success (constEnv (.response 200 "{}")) noArgs 200 "{}" sampleSession
    rfl (by decide) rfl rfl

/-- C7: a successful favorite_clip invocation reports "added to" when the
returned clip has IsFavorite true and "removed from" when it has IsFavorite
false. -/
theorem C7_favorite_toggle_text (env : ClientEnv) (args : Args) (cid : String) (st : Nat)
    (b : String) (clip : Clip)
    (hcid : cid ≠ "")
    (hargs : args "clip_id" = some (.str cid))
    (htr : env.transport
      { method := "POST", path := "/api/v1/clips/" ++ cid ++ "/favorite",
        query := [], body := none } = .response st b)
    (hst : st < 400) (hdec : env.decodeClip b = .ok clip) :
    (makeFavoriteClip env args).1.isError = false ∧
    (clip.isFavorite = true →
      ContainsSub (makeFavoriteClip env args).1.text "added to") ∧
    (clip.isFavorite = false →
      ContainsSub (makeFavoriteClip env args).1.text "removed from") := by
  have hout : makeFavoriteClip env args =
      (newToolResultText
        ("Clip " ++ (if clip.isFavorite then "added to" else "removed from") ++ " favorites"),
       [{ method := "POST", path := "/api/v1/clips/" ++ cid ++ "/favorite",
          query := [], body := none }]) := by
    simp [makeFavoriteClip, ClientEnv.favoriteClip, doPost, doRequest,
      strOrEmpty, asStr, hargs, hcid, htr, Nat.not_le.mpr hst, hdec]
  rw [hout]
  refine ⟨rfl, fun hf => ?_, fun hf => ?_⟩
  · rw [hf]
    exact containsSub_appRight " favorites"
      (containsSub_appLeft "Clip " (containsSub_self "added to"))
  · rw [hf]
    exact containsSub_appRight " favorites"
      (containsSub_appLeft "Clip " (containsSub_self "removed from"))

/-- C7 witness: with the sample clip (IsFavorite true) the result text contains
"added to". -/
theorem C7_witness :
    (makeFavoriteClip (constEnv (.response 200 "{}"))
        (setArg noArgs "clip_id" (some (.str "clip-1")))).1.isError = false ∧
    ContainsSub (makeFavoriteClip (constEnv (.response 200 "{}"))
        (setArg noArgs "clip_id" (some (.str "clip-1")))).1.text "added to" :=
  ⟨(C7_favorite_toggle_text (constEnv (.response 200 "{}"))
      (setArg noArgs "clip_id" (some (.str "clip-1"))) "clip-1" 200 "{}" sampleClip
      (by decide) (by decide) rfl (by decide) rfl).1,
   (C7_favorite_toggle_text (constEnv (.response 200 "{}"))
      (setArg noArgs "clip_id" (some (.str "clip-1"))) "clip-1" 200 "{}" sampleClip
      (by decide) (by decide) rfl (by decide) rfl).2.1 rfl⟩

/-- C8: when the upstream client call fails, each resource handler propagates a
hard error (no contents), never a success-shaped document carrying the error
text. -/
theorem C8_resource_hard_error (env : ClientEnv) (uri : String) :
    (∀ e, (env.listSessions { limit := 100 }).1 = .error e →
      (makeSessionsResource env uri).1 =
        .error ("failed to fetch sessions: " ++ renderError e)) ∧
    (∀ e, (env.listClips { limit := 100 }).1 = .error e →
      (makeClipsResource env uri).1 =
        .error ("failed to fetch clips: " ++ renderError e)) ∧
    (∀ e, (env.listChannels).1 = .error e →
      (makeChannelsResource env uri).1 =
        .error ("failed to fetch channels: " ++ renderError e)) ∧
    (∀ e, (env.listTags { limit := 100 }).1 = .error e →
      (makeTagsResource env uri).1 =
        .error ("failed to fetch tags: " ++ renderError e)) := by
  refine ⟨?_, ?_, ?_, ?_⟩
  · intro e he
    simp only [ClientEnv.listSessions, doGet] at he
    simp [makeSessionsResource, ClientEnv.listSessions, doGet, he]
  · intro e he
    simp only [ClientEnv.listClips, doGet] at he
    simp [makeClipsResource, ClientEnv.listClips, doGet, he]
  · intro e he
    simp only [ClientEnv.listChannels, doGet] at he
    simp [makeChannelsResource, ClientEnv.listChannels, doGet, he]
  · intro e he
    simp only [ClientEnv.listTags, doGet] at he
    simp [makeTagsResource, ClientEnv.listTags, doGet, he]

/-- C8 witness: against an upstream that always answers 500 "boom", the
sessions resource read is a hard error. -/
theorem C8_witness :
    (makeSessionsResource (constEnv (.response 500 "boom")) "video://sessions").1 =
      .error ("failed to fetch sessions: " ++ renderError (.apiError 500 "boom")) :=
  (C8_resource_hard_error (constEnv (.response 500 "boom")) "video://sessions").1
    (.apiError 500 "boom") rfl

end VideoMCP
